import Mathlib

/-!
Shallow embedding of `graphics/vnc/server/vnc_fbdev.c`: the VNC server's
frame-buffer front end (capability dispatch, lazy adapter construction and
the display lifecycle entry points), checked against its natural-language
specification.

Modelling conventions.  Machine integers are `Nat`/`Int`; the one place the
code computes in a fixed width (`(uint32_t)session->stride *
CONFIG_VNCSERVER_SCREENWIDTH`) takes an explicit `% 2 ^ 32`.  A nullable C
pointer argument is an `Option`; a C null dereference is an explicit `crash`
outcome.  Every entry point passes the process-wide globals (`g_fbinfo`,
the session directory behind `vnc_find_session`, and the cursor globals)
explicitly as a `VncState`, and returns the possibly-updated state together
with its C return value and whatever it stored through its out parameters.
The maximum display count `RFB_MAX_DISPLAYS` (a build configuration value)
is passed as an explicit parameter `N`.
-/

/-- C return value `OK` (zero). -/
def OK : Int := 0

/-- The `EINVAL` errno value (invalid argument). -/
def EINVAL : Int := 22

/-- The `ENOTCONN` errno value (not connected). -/
def ENOTCONN : Int := 107

/-- Build-time configured screen width (`CONFIG_VNCSERVER_SCREENWIDTH`),
320 in the negotiated scenario of the specification. -/
def CONFIG_VNCSERVER_SCREENWIDTH : Nat := 320

/-- Build-time configured screen height (`CONFIG_VNCSERVER_SCREENHEIGHT`),
240 in the negotiated scenario of the specification. -/
def CONFIG_VNCSERVER_SCREENHEIGHT : Nat := 240

/-- Session states (spec section 4.2).  The protocol-engine header (outside
the reviewed sources) owns the concrete constants; `vnc_fbdev.c` only ever
compares against `VNCSERVER_SCANNING`, the post-handshake state in which
capability calls are permitted — the specification's `READY`.  `scanning`
stands for `VNCSERVER_SCANNING`; the other constructors cover the
specification's `IDLE`/`NEGOTIATING`/`STOPPED`. -/
inductive SessionState where
  | uninitialized
  | negotiating
  | scanning
  | stopped
  deriving DecidableEq, Repr

/-- One display's `struct vnc_session_s`, restricted to the fields
`vnc_fbdev.c` reads: connection state, negotiated color format, screen
geometry (`screen.w`/`screen.h`), stride and bits per pixel.  The frame
buffer pointer itself (`session->fb`) carries no data the claims inspect
and is omitted. -/
structure VncSession where
  state : SessionState
  colorfmt : Nat
  screen_w : Nat
  screen_h : Nat
  stride : Nat
  bpp : Nat
  deriving DecidableEq, Repr

/-- One entry of `g_fbinfo[]` (`struct vnc_fbinfo_s`): the public vtable
(whose six function pointers are always assigned together, modelled as the
single flag `vtableSet`), the lazy-construction flag and the display
back-reference (a `uint8_t` in the source). -/
structure VncFbinfo where
  vtableSet : Bool
  initialized : Bool
  display : Nat
  deriving DecidableEq, Repr

/-- The process-wide mutable globals of `vnc_fbdev.c`: the session directory
contents (behind `vnc_find_session`), the `g_fbinfo[]` adapter array, and
the cursor globals `g_cpos`/`g_csize`.  Arrays are total functions from the
display index; accesses are only ever performed at indices validated by the
session lookup. -/
structure VncState where
  sessions : Nat → Option VncSession
  fbinfo : Nat → VncFbinfo
  cpos : Int × Int
  csize : Int × Int

/-- Modelled from the spec: the Session Directory operation
`lookup(display) -> Session reference or absent` (spec sections 2 and 4.1)
over a fixed-capacity table of at most `N` Sessions indexed by display
identifier, with the invariant that identifiers lie in `[0, N)` (spec
section 3): a display outside that range has no entry and the lookup is
absent.  The function `vnc_find_session` itself is declared in
`vnc_server.h`, which is not among the reviewed sources. -/
def vnc_find_session (N : Nat) (st : VncState) (display : Int) :
    Option VncSession :=
  if 0 ≤ display ∧ display < (N : Int) then st.sessions display.toNat else none

/-- Result of `struct fb_videoinfo_s` as written by `up_getvideoinfo`
(fields `fmt`, `xres`, `yres`, `nplanes`; the source overwrites all four on
success). -/
structure FbVideoinfo where
  fmt : Nat
  xres : Nat
  yres : Nat
  nplanes : Nat
  deriving DecidableEq, Repr

/-- `struct fb_planeinfo_s` as written by `up_getplaneinfo` (fields `fblen`,
`stride`, `bpp`; `fbmem` is a raw pointer into the session and carries no
data the claims inspect). -/
structure FbPlaneinfo where
  fblen : Nat
  stride : Nat
  bpp : Nat
  deriving DecidableEq, Repr

/-- `struct fb_cmap_s`: a colormap range `[first, first + len)` and its
red/green/blue entry lists. -/
structure FbCmap where
  first : Nat
  len : Nat
  red : List Nat
  green : List Nat
  blue : List Nat
  deriving DecidableEq, Repr

/-- `struct fb_cursorattrib_s` as far as the driver is concerned (never
actually written: the body of `up_getcursor` is an unimplemented
placeholder). -/
structure FbCursorattrib where
  pos : Int × Int
  size : Int × Int
  deriving DecidableEq, Repr

/-- `struct fb_setcursor_s`: the sub-update bitmask plus the requested
position and size. -/
structure FbSetcursor where
  flags : Nat
  pos : Int × Int
  size : Int × Int
  deriving DecidableEq, Repr

/-- `up_getvideoinfo`: after the null-argument guard, re-resolves the
session from the adapter's display back-reference; absent or
non-`SCANNING` session yields `-ENOTCONN`; otherwise it overwrites the
caller's `fb_videoinfo_s` with the negotiated format, geometry and a plane
count of 1.  Returns (C return value, caller's struct after the call,
globals after the call). -/
def up_getvideoinfo (N : Nat) (st : VncState) (vtable : Option VncFbinfo)
    (vinfo : Option FbVideoinfo) : Int × Option FbVideoinfo × VncState :=
  match vtable, vinfo with
  | some fbinfo, some v =>
    match vnc_find_session N st (fbinfo.display : Int) with
    | none => (-ENOTCONN, some v, st)
    | some session =>
      if session.state ≠ SessionState.scanning then (-ENOTCONN, some v, st)
      else
        (OK, some { fmt := session.colorfmt, xres := session.screen_w,
                    yres := session.screen_h, nplanes := 1 }, st)
  | _, _ => (-EINVAL, vinfo, st)

/-- `up_getplaneinfo`: the argument guard additionally requires
`planeno == 0`; on a `SCANNING` session it stores
`fblen = (uint32_t)session->stride * CONFIG_VNCSERVER_SCREENWIDTH`
(exactly as the source computes it — note the WIDTH constant), the stride
and the bits per pixel. -/
def up_getplaneinfo (N : Nat) (st : VncState) (vtable : Option VncFbinfo)
    (planeno : Int) (pinfo : Option FbPlaneinfo) :
    Int × Option FbPlaneinfo × VncState :=
  match vtable, pinfo with
  | some fbinfo, some p =>
    if planeno = 0 then
      match vnc_find_session N st (fbinfo.display : Int) with
      | none => (-ENOTCONN, some p, st)
      | some session =>
        if session.state ≠ SessionState.scanning then (-ENOTCONN, some p, st)
        else
          (OK, some { fblen := session.stride * CONFIG_VNCSERVER_SCREENWIDTH % 2 ^ 32,
                      stride := session.stride, bpp := session.bpp }, st)
    else (-EINVAL, some p, st)
  | _, _ => (-EINVAL, pinfo, st)

/-- `up_getcmap` (built under `CONFIG_FB_CMAP`): argument and session-state
guards as above; the actual colormap read is the placeholder
`#warning Missing logic`, so on success the function returns `OK` having
stored nothing — the caller's `fb_cmap_s` is returned exactly as passed. -/
def up_getcmap (N : Nat) (st : VncState) (vtable : Option VncFbinfo)
    (cmap : Option FbCmap) : Int × Option FbCmap × VncState :=
  match vtable, cmap with
  | some fbinfo, some c =>
    match vnc_find_session N st (fbinfo.display : Int) with
    | none => (-ENOTCONN, some c, st)
    | some session =>
      if session.state ≠ SessionState.scanning then (-ENOTCONN, some c, st)
      else (OK, some c, st)
  | _, _ => (-EINVAL, cmap, st)

/-- `up_putcmap` (built under `CONFIG_FB_CMAP`): argument and session-state
guards as above; the actual colormap store is the placeholder
`#warning Missing logic`, so on success the function returns `OK` having
mutated nothing. -/
def up_putcmap (N : Nat) (st : VncState) (vtable : Option VncFbinfo)
    (cmap : Option FbCmap) : Int × VncState :=
  match vtable, cmap with
  | some fbinfo, some _ =>
    match vnc_find_session N st (fbinfo.display : Int) with
    | none => (-ENOTCONN, st)
    | some session =>
      if session.state ≠ SessionState.scanning then (-ENOTCONN, st)
      else (OK, st)
  | _, _ => (-EINVAL, st)

/-- `up_getcursor` (built under `CONFIG_FB_HWCURSOR`): argument and
session-state guards as above; the attribute read is the placeholder
`#warning Missing logic`, so on success it returns `OK` having stored
nothing. -/
def up_getcursor (N : Nat) (st : VncState) (vtable : Option VncFbinfo)
    (attrib : Option FbCursorattrib) : Int × Option FbCursorattrib × VncState :=
  match vtable, attrib with
  | some fbinfo, some a =>
    match vnc_find_session N st (fbinfo.display : Int) with
    | none => (-ENOTCONN, some a, st)
    | some session =>
      if session.state ≠ SessionState.scanning then (-ENOTCONN, some a, st)
      else (OK, some a, st)
  | _, _ => (-EINVAL, attrib, st)

/-- `up_setcursor` (built under `CONFIG_FB_HWCURSOR`): argument and
session-state guards as above; each of the `FB_CUR_SETPOSITION` /
`FB_CUR_SETSIZE` / `FB_CUR_SETIMAGE` branches is the placeholder
`#warning Missing logic`, so on success it returns `OK` with the cursor
globals untouched. -/
def up_setcursor (N : Nat) (st : VncState) (vtable : Option VncFbinfo)
    (settings : Option FbSetcursor) : Int × VncState :=
  match vtable, settings with
  | some fbinfo, some _ =>
    match vnc_find_session N st (fbinfo.display : Int) with
    | none => (-ENOTCONN, st)
    | some session =>
      if session.state ≠ SessionState.scanning then (-ENOTCONN, st)
      else (OK, st)
  | _, _ => (-EINVAL, st)

/-- `up_fbinitialize` (embedded as `up_fbinitialize_fn`): spawns the
`vnc_server` kernel thread, whose result `pid` is an environment input; a
negative `pid` is returned as the error.  The post-spawn wait — the source
comment reads `Wait for the VNC client to connect and for the RFB to be
ready` — is the placeholder `#warning Missing logic`, after which the
function returns `OK`.  It performs no display-range validation beyond a
debug-build-only assertion (see `up_fbinitialize_debugassert`) and never
touches any global state. -/
def up_fbinitialize_fn (st : VncState) (display : Int) (pid : Int) :
    Int × VncState :=
  if pid < 0 then (pid, st) else (OK, st)

/-- The condition of the debug-build-only
`DEBUGASSERT(display >= 8 && display < RFB_MAX_DISPLAYS)` in
`up_fbinitialize` — its lower bound of 8 is the inconsistency the
specification flags in section 9.  A no-op in release builds. -/
def up_fbinitialize_debugassert (N : Nat) (display : Int) : Bool :=
  decide (8 ≤ display) && decide (display < (N : Int))

/-- Result of `up_fbgetvplane`: a pointer to `g_fbinfo[d].vtable`
(identified by its array slot `d`), the null pointer, or undefined
behavior (`crash`, a null session dereference). -/
inductive BindResult where
  | vtable : Nat → BindResult
  | nullPtr : BindResult
  | crash : BindResult
  deriving DecidableEq, Repr

/-- Whether a `BindResult` is an actual adapter (vtable) reference. -/
def BindResult.isAdapter : BindResult → Bool
  | BindResult.vtable _ => true
  | _ => false

/-- `up_fbgetvplane`: resolves the session and — with no null guard —
immediately reads `session->state`, so an absent session is a null
dereference (`crash`); a non-`SCANNING` session returns `NULL`; for plane 0
it lazily populates `g_fbinfo[display]` (vtable pointers, display
back-reference stored as a `uint8_t`, `initialized` flag) on first use and
returns the address of that entry's vtable; any other plane returns
`NULL`. -/
def up_fbgetvplane (N : Nat) (st : VncState) (display : Int) (vplane : Int) :
    BindResult × VncState :=
  match vnc_find_session N st display with
  | none => (BindResult.crash, st)
  | some session =>
    if session.state ≠ SessionState.scanning then (BindResult.nullPtr, st)
    else if vplane = 0 then
      if (st.fbinfo display.toNat).initialized then
        (BindResult.vtable display.toNat, st)
      else
        (BindResult.vtable display.toNat,
         { st with fbinfo := fun d =>
             if d = display.toNat then
               { vtableSet := true, initialized := true,
                 display := display.toNat % 256 }
             else st.fbinfo d })
    else (BindResult.nullPtr, st)

/-- `up_fbuninitialize` (embedded as `up_fbuninitialize_fn`): resolves the
session, asserts it non-null in debug builds (see
`up_fbuninitialize_assert`), takes the address of `g_fbinfo[display]`, and
the entire teardown body is the placeholder `#warning Missing logic`: no
global state changes. -/
def up_fbuninitialize_fn (N : Nat) (st : VncState) (display : Int) : VncState :=
  st

/-- The condition of `DEBUGASSERT(session != NULL)` in `up_fbuninitialize`:
the looked-up session must exist. -/
def up_fbuninitialize_assert (N : Nat) (st : VncState) (display : Int) : Bool :=
  (vnc_find_session N st display).isSome

/-! Concrete fixtures used to evaluate the entry points: the specification's
negotiated 320×240 16-bit scenario (stride 640), the same session stopped,
an initialized and an untouched adapter slot, and zeroed caller structs. -/

/-- The negotiated 320×240, 16-bit (RGB565, stride 640) session of the
specification's scenario, in the `SCANNING` (`READY`) state. -/
def session320 : VncSession :=
  { state := SessionState.scanning, colorfmt := 11, screen_w := 320,
    screen_h := 240, stride := 640, bpp := 16 }

/-- The same negotiated session after a stop: state `stopped`. -/
def sessionStopped : VncSession :=
  { session320 with state := SessionState.stopped }

/-- An untouched (`zero-initialized`) `g_fbinfo[]` entry. -/
def emptyFb : VncFbinfo :=
  { vtableSet := false, initialized := false, display := 0 }

/-- An adapter slot already initialized for display 0. -/
def fb0 : VncFbinfo :=
  { vtableSet := true, initialized := true, display := 0 }

/-- Globals with an empty session directory and untouched adapter slots. -/
def st0 : VncState :=
  { sessions := fun _ => none, fbinfo := fun _ => emptyFb,
    cpos := (0, 0), csize := (0, 0) }

/-- Globals in which display 0 holds the negotiated `SCANNING` session. -/
def stReady : VncState :=
  { st0 with sessions := fun d => if d = 0 then some session320 else none }

/-- Globals in which display 0 holds the stopped session. -/
def stStopped : VncState :=
  { st0 with sessions := fun d => if d = 0 then some sessionStopped else none }

/-- A zeroed caller `fb_videoinfo_s`. -/
def vi0 : FbVideoinfo := { fmt := 0, xres := 0, yres := 0, nplanes := 0 }

/-- A zeroed caller `fb_planeinfo_s`. -/
def pi0 : FbPlaneinfo := { fblen := 0, stride := 0, bpp := 0 }

/-- A one-entry colormap range holding zeros. -/
def cmap0 : FbCmap := { first := 0, len := 1, red := [0], green := [0], blue := [0] }

/-- A one-entry colormap range holding the value 42 in each channel. -/
def cmap42 : FbCmap := { first := 0, len := 1, red := [42], green := [42], blue := [42] }

/-- A zeroed caller cursor-attribute struct. -/
def ca0 : FbCursorattrib := { pos := (0, 0), size := (0, 0) }

/-- A zeroed cursor-update request. -/
def sc0 : FbSetcursor := { flags := 0, pos := (0, 0), size := (0, 0) }

/-- Claim C1: the claim says `get_plane_info` on a `READY` session returns a
plane length of exactly `stride * height` (153600 for the negotiated
320×240, 16-bit, stride-640 scenario).  The code instead computes
`(uint32_t)session->stride * CONFIG_VNCSERVER_SCREENWIDTH` — the WIDTH
constant — and returns 204800 for that very scenario, contradicting the
documented `stride*height` invariant: a code bug.  This theorem evaluates
the embedded code at the scenario input. -/
theorem up_getplaneinfo_fblen_width_bug :
    (up_getplaneinfo 1 stReady (some fb0) 0 (some pi0)).1 = OK ∧
    (up_getplaneinfo 1 stReady (some fb0) 0 (some pi0)).2.1 =
      some { fblen := 204800, stride := 640, bpp := 16 } ∧
    session320.stride * session320.screen_h = 153600 ∧
    (204800 : Nat) ≠ 153600 := by
  refine ⟨by decide, by decide, by decide, by decide⟩

/-- Claim C2: the claim says `up_fbinitialize` blocks until the spawned
protocol-engine task reports the Session reached `READY` and returns
success only once `READY` is confirmed.  The code's wait — right under the
comment `Wait for the VNC client to connect and for the RFB to be ready` —
is the placeholder `#warning Missing logic`: it returns `OK` immediately
after a successful spawn.  Evaluated here: with an empty session directory
and a successful spawn (`pid = 42`), the call succeeds although no session
exists at all, let alone a `READY` one — a code bug (the code contradicts
its own comment). -/
theorem up_fbinitialize_ok_without_ready_bug :
    (up_fbinitialize_fn st0 0 42).1 = OK ∧
    vnc_find_session 1 st0 0 = none := by
  refine ⟨by decide, by decide⟩

/-- Claim C3, counterexample: the claim says that for every display outside
`[0, N)` both `up_fbinitialize` and `up_fbgetvplane` fail with
InvalidArgument.  With `N = 1`, display 1 is out of range, yet
`up_fbinitialize` with a successful spawn returns `OK` — not `-EINVAL`:
the function performs no display-range validation at all (only the
debug-build assertion, which is not an error return). -/
theorem up_fbinitialize_out_of_range_not_einval :
    (¬ (0 ≤ (1 : Int) ∧ (1 : Int) < ((1 : Nat) : Int))) ∧
    (up_fbinitialize_fn st0 1 42).1 = OK ∧
    OK ≠ -EINVAL := by
  refine ⟨by decide, by decide, by decide⟩

/-- Claim C3, amended: for every display outside `[0, N)`, neither entry
point returns InvalidArgument.  `up_fbinitialize` performs no range
validation: it returns the spawn error on a failed spawn and `OK` on a
successful one, and leaves all Session and adapter storage unchanged.
`up_fbgetvplane` performs no range validation either: the session lookup is
absent for such a display, and the function dereferences the null result
(undefined behavior, `crash`) before any plane check, instead of producing
any defined failure value. -/
theorem out_of_range_display_no_validation (N : Nat) (st : VncState)
    (display pid : Int) (h : ¬ (0 ≤ display ∧ display < (N : Int))) :
    (0 ≤ pid → up_fbinitialize_fn st display pid = (OK, st)) ∧
    (pid < 0 → up_fbinitialize_fn st display pid = (pid, st)) ∧
    vnc_find_session N st display = none ∧
    (∀ vplane, up_fbgetvplane N st display vplane = (BindResult.crash, st)) := by
  have hfind : vnc_find_session N st display = none := by
    simp only [vnc_find_session, if_neg h]
  refine ⟨?_, ?_, hfind, ?_⟩
  · intro hpid
    simp [up_fbinitialize_fn, not_lt.mpr hpid]
  · intro hpid
    simp [up_fbinitialize_fn, hpid]
  · intro vplane
    simp [up_fbgetvplane, hfind]

/-- Witness for `out_of_range_display_no_validation` at `N = 1`,
display 1, a successful spawn (`pid = 5`) and the empty globals. -/
theorem out_of_range_display_no_validation_witness :
    up_fbinitialize_fn st0 1 5 = (OK, st0) ∧
    up_fbgetvplane 1 st0 1 0 = (BindResult.crash, st0) := by
  have h := out_of_range_display_no_validation 1 st0 1 5 (by decide)
  exact ⟨h.1 (by decide), h.2.2.2 0⟩

/-- Claim C6: the claim states the colormap round-trip law — a successful
`up_putcmap` over a range followed immediately by `up_getcmap` over the
same range returns the entries just written.  Both bodies are the
placeholder `#warning Missing logic`: `up_putcmap` stores nothing (the
globals after the call are unchanged) and `up_getcmap` reads nothing back
(the caller's struct is returned exactly as passed).  Evaluated at the
`READY` scenario session: writing the 42-entry succeeds, yet an immediate
read into a zeroed struct still holds 0 — a code bug (the placeholders
contradict the capability contract the file implements). -/
theorem cmap_roundtrip_missing_bug :
    (up_putcmap 1 stReady (some fb0) (some cmap42)).1 = OK ∧
    (up_putcmap 1 stReady (some fb0) (some cmap42)).2 = stReady ∧
    (up_getcmap 1 stReady (some fb0) (some cmap0)).1 = OK ∧
    (up_getcmap 1 stReady (some fb0) (some cmap0)).2.1 = some cmap0 ∧
    cmap0 ≠ cmap42 := by
  refine ⟨by decide, rfl, by decide, by decide, by decide⟩

/-- Claim C7: if spawning the protocol-engine task fails (`pid < 0`),
`up_fbinitialize` returns that negative error value and neither creates nor
modifies any Session entry: the globals are returned untouched (the
function never writes session or adapter storage on any path). -/
theorem up_fbinitialize_spawn_failure (st : VncState) (display pid : Int)
    (h : pid < 0) :
    up_fbinitialize_fn st display pid = (pid, st) := by
  simp [up_fbinitialize_fn, h]

/-- Witness for `up_fbinitialize_spawn_failure` at display 0 with spawn
error `-12` (`-ENOMEM`) and the empty globals. -/
theorem up_fbinitialize_spawn_failure_witness :
    up_fbinitialize_fn st0 0 (-12) = (-12, st0) :=
  up_fbinitialize_spawn_failure st0 0 (-12) (by decide)

/-- State preservation of `up_getvideoinfo`: no path writes any global. -/
theorem up_getvideoinfo_preserves (N : Nat) (st : VncState)
    (vt : Option VncFbinfo) (vi : Option FbVideoinfo) :
    (up_getvideoinfo N st vt vi).2.2 = st := by
  rcases vt with _ | f
  · rfl
  · rcases vi with _ | v
    · rfl
    · rcases h : vnc_find_session N st (f.display : Int) with _ | s <;>
        simp only [up_getvideoinfo, h] <;> split <;> rfl

/-- State preservation of `up_getplaneinfo`: no path writes any global. -/
theorem up_getplaneinfo_preserves (N : Nat) (st : VncState)
    (vt : Option VncFbinfo) (p : Int) (pi2 : Option FbPlaneinfo) :
    (up_getplaneinfo N st vt p pi2).2.2 = st := by
  rcases vt with _ | f
  · rfl
  · rcases pi2 with _ | v
    · rfl
    · by_cases hp : p = 0
      · rcases h : vnc_find_session N st (f.display : Int) with _ | s <;>
          simp only [up_getplaneinfo, h, hp, if_true] <;> split <;> rfl
      · simp [up_getplaneinfo, hp]

/-- State preservation of `up_getcmap`: no path writes any global. -/
theorem up_getcmap_preserves (N : Nat) (st : VncState)
    (vt : Option VncFbinfo) (cm : Option FbCmap) :
    (up_getcmap N st vt cm).2.2 = st := by
  rcases vt with _ | f
  · rfl
  · rcases cm with _ | c
    · rfl
    · rcases h : vnc_find_session N st (f.display : Int) with _ | s <;>
        simp only [up_getcmap, h] <;> split <;> rfl

/-- State preservation of `up_putcmap`: no path writes any global (the
colormap store itself is an unimplemented placeholder). -/
theorem up_putcmap_preserves (N : Nat) (st : VncState)
    (vt : Option VncFbinfo) (cm : Option FbCmap) :
    (up_putcmap N st vt cm).2 = st := by
  rcases vt with _ | f
  · rfl
  · rcases cm with _ | c
    · rfl
    · rcases h : vnc_find_session N st (f.display : Int) with _ | s <;>
        simp only [up_putcmap, h] <;> split <;> rfl

/-- State preservation of `up_getcursor`: no path writes any global. -/
theorem up_getcursor_preserves (N : Nat) (st : VncState)
    (vt : Option VncFbinfo) (ca : Option FbCursorattrib) :
    (up_getcursor N st vt ca).2.2 = st := by
  rcases vt with _ | f
  · rfl
  · rcases ca with _ | c
    · rfl
    · rcases h : vnc_find_session N st (f.display : Int) with _ | s <;>
        simp only [up_getcursor, h] <;> split <;> rfl

/-- State preservation of `up_setcursor`: no path writes any global (every
sub-update branch is an unimplemented placeholder). -/
theorem up_setcursor_preserves (N : Nat) (st : VncState)
    (vt : Option VncFbinfo) (sc : Option FbSetcursor) :
    (up_setcursor N st vt sc).2 = st := by
  rcases vt with _ | f
  · rfl
  · rcases sc with _ | c
    · rfl
    · rcases h : vnc_find_session N st (f.display : Int) with _ | s <;>
        simp only [up_setcursor, h] <;> split <;> rfl

/-- Claim C4: every capability operation (`up_getvideoinfo`,
`up_getplaneinfo`, `up_getcmap`, `up_putcmap`, `up_getcursor`,
`up_setcursor`) called with non-null (valid) arguments while the display's
session is absent or not in the `SCANNING` (`READY`) state returns
`-ENOTCONN`, stores nothing through the caller's struct, and leaves every
global — session directory, adapter slots, cursor state — unchanged; and,
more generally, no capability call on any arguments mutates any global
state (the trailing universally quantified conjuncts), so every call
either fully succeeds or performs no mutation. -/
theorem capability_not_ready_enotconn (N : Nat) (st : VncState)
    (fb : VncFbinfo) (vi : FbVideoinfo) (pin : FbPlaneinfo) (cm : FbCmap)
    (ca : FbCursorattrib) (sc : FbSetcursor)
    (h : vnc_find_session N st (fb.display : Int) = none ∨
         ∃ s, vnc_find_session N st (fb.display : Int) = some s ∧
              s.state ≠ SessionState.scanning) :
    up_getvideoinfo N st (some fb) (some vi) = (-ENOTCONN, some vi, st) ∧
    up_getplaneinfo N st (some fb) 0 (some pin) = (-ENOTCONN, some pin, st) ∧
    up_getcmap N st (some fb) (some cm) = (-ENOTCONN, some cm, st) ∧
    up_putcmap N st (some fb) (some cm) = (-ENOTCONN, st) ∧
    up_getcursor N st (some fb) (some ca) = (-ENOTCONN, some ca, st) ∧
    up_setcursor N st (some fb) (some sc) = (-ENOTCONN, st) ∧
    (∀ vt vi2, (up_getvideoinfo N st vt vi2).2.2 = st) ∧
    (∀ vt p pi2, (up_getplaneinfo N st vt p pi2).2.2 = st) ∧
    (∀ vt cm2, (up_getcmap N st vt cm2).2.2 = st) ∧
    (∀ vt cm2, (up_putcmap N st vt cm2).2 = st) ∧
    (∀ vt ca2, (up_getcursor N st vt ca2).2.2 = st) ∧
    (∀ vt sc2, (up_setcursor N st vt sc2).2 = st) := by
  rcases h with hfind | ⟨s, hfind, hstate⟩
  · exact ⟨by simp [up_getvideoinfo, hfind], by simp [up_getplaneinfo, hfind],
      by simp [up_getcmap, hfind], by simp [up_putcmap, hfind],
      by simp [up_getcursor, hfind], by simp [up_setcursor, hfind],
      up_getvideoinfo_preserves N st, up_getplaneinfo_preserves N st,
      up_getcmap_preserves N st, up_putcmap_preserves N st,
      up_getcursor_preserves N st, up_setcursor_preserves N st⟩
  · exact ⟨by simp [up_getvideoinfo, hfind, hstate],
      by simp [up_getplaneinfo, hfind, hstate],
      by simp [up_getcmap, hfind, hstate],
      by simp [up_putcmap, hfind, hstate],
      by simp [up_getcursor, hfind, hstate],
      by simp [up_setcursor, hfind, hstate],
      up_getvideoinfo_preserves N st, up_getplaneinfo_preserves N st,
      up_getcmap_preserves N st, up_putcmap_preserves N st,
      up_getcursor_preserves N st, up_setcursor_preserves N st⟩

/-- Witness for `capability_not_ready_enotconn`: display 0 of the stopped
fixture holds a session whose state is `stopped`, so `up_getvideoinfo` and
`up_setcursor` through the initialized adapter both return `-ENOTCONN`
leaving everything untouched. -/
theorem capability_not_ready_enotconn_witness :
    up_getvideoinfo 1 stStopped (some fb0) (some vi0) =
      (-ENOTCONN, some vi0, stStopped) ∧
    up_setcursor 1 stStopped (some fb0) (some sc0) = (-ENOTCONN, stStopped) := by
  have h := capability_not_ready_enotconn 1 stStopped fb0 vi0 pi0 cmap0 ca0 sc0
    (Or.inr ⟨sessionStopped, by decide, by decide⟩)
  exact ⟨h.1, h.2.2.2.2.2.1⟩

/-- Claim C5, counterexample: the claim says that for every in-range
display, `up_fbgetvplane` with plane 0 (twice) returns the same adapter
instance.  Display 0 is in range for `N = 1`, yet while its session is
merely present in the `stopped` state, neither the first nor the second
plane-0 call returns an adapter at all: the state guard
(`session->state != VNCSERVER_SCANNING`) sits in `up_fbgetvplane` itself
and yields `NULL` first — the claim holds only under the `READY`
precondition it omits. -/
theorem up_fbgetvplane_inrange_no_adapter :
    (0 ≤ (0 : Int) ∧ (0 : Int) < ((1 : Nat) : Int)) ∧
    BindResult.isAdapter (up_fbgetvplane 1 stStopped 0 0).1 = false ∧
    BindResult.isAdapter
      (up_fbgetvplane 1 (up_fbgetvplane 1 stStopped 0 0).2 0 0).1 = false := by
  refine ⟨by decide, by decide, by decide⟩

/-- Claim C5 as amended: for every in-range display whose session exists
and is in the `SCANNING` (`READY`) state, `up_fbgetvplane` with plane 0
returns the adapter slot of that display; calling it again returns the
identical slot (the same `&g_fbinfo[display].vtable` address) and changes
nothing further, the lazy construction having happened at most once; and
any plane index other than 0 returns `NULL` — never an error code — with
no state change.  (The session hypothesis also forces the display into
`[0, N)`, since the lookup is absent outside that range.) -/
theorem up_fbgetvplane_ready_bind_once (N : Nat) (st : VncState)
    (display : Int) (s : VncSession)
    (hs : vnc_find_session N st display = some s)
    (hready : s.state = SessionState.scanning) :
    (up_fbgetvplane N st display 0).1 = BindResult.vtable display.toNat ∧
    up_fbgetvplane N (up_fbgetvplane N st display 0).2 display 0 =
      (BindResult.vtable display.toNat, (up_fbgetvplane N st display 0).2) ∧
    (∀ vplane, vplane ≠ 0 →
      up_fbgetvplane N st display vplane = (BindResult.nullPtr, st)) := by
  have hs2 := hs
  simp only [vnc_find_session] at hs2
  by_cases hinit : (st.fbinfo display.toNat).initialized
  · refine ⟨?_, ?_, ?_⟩
    · simp [up_fbgetvplane, hs, hready, hinit]
    · simp [up_fbgetvplane, vnc_find_session, hs2, hready, hinit]
    · intro vplane hv
      simp [up_fbgetvplane, hs, hready, hv]
  · refine ⟨?_, ?_, ?_⟩
    · simp [up_fbgetvplane, hs, hready, hinit]
    · simp [up_fbgetvplane, vnc_find_session, hs2, hready, hinit]
    · intro vplane hv
      simp [up_fbgetvplane, hs, hready, hv]

/-- Witness for `up_fbgetvplane_ready_bind_once` at the ready fixture:
display 0's session is `SCANNING`, plane 0 yields adapter slot 0 and plane
1 yields `NULL` with the globals untouched. -/
theorem up_fbgetvplane_ready_bind_once_witness :
    (up_fbgetvplane 1 stReady 0 0).1 = BindResult.vtable 0 ∧
    up_fbgetvplane 1 stReady 0 1 = (BindResult.nullPtr, stReady) := by
  have h := up_fbgetvplane_ready_bind_once 1 stReady 0 session320
    (by decide) (by decide)
  exact ⟨h.1, h.2.2 1 (by decide)⟩

/-- Claim C9: `up_fbgetvplane` and `up_fbuninitialize` require a session
record to exist for the display.  `up_fbgetvplane` reads `session->state`
with no null guard before any plane check, so for every plane index its
null-dereference (`crash`) outcome occurs exactly when the lookup is
absent — there is no defined absent/NotConnected result, and the
dereference is safe only under the existence precondition.
`up_fbuninitialize` states the same precondition as
`DEBUGASSERT(session != NULL)`: its assertion fails exactly when the
lookup is absent. -/
theorem session_lookup_precondition (N : Nat) (st : VncState) (display : Int) :
    (∀ vplane, ((up_fbgetvplane N st display vplane).1 = BindResult.crash ↔
        vnc_find_session N st display = none)) ∧
    (up_fbuninitialize_assert N st display = false ↔
        vnc_find_session N st display = none) := by
  constructor
  · intro vplane
    rcases hfind : vnc_find_session N st display with _ | s
    · simp [up_fbgetvplane, hfind]
    · have hnc : (up_fbgetvplane N st display vplane).1 ≠ BindResult.crash := by
        simp only [up_fbgetvplane, hfind]
        split
        · simp
        · split
          · split <;> simp
          · simp
      simp [hfind, hnc]
  · rcases hfind : vnc_find_session N st display with _ | s <;>
      simp [up_fbuninitialize_assert, hfind]

/-- Claim C10: for every display whose session exists but is not in the
`SCANNING` (`READY`) state, `up_fbgetvplane` with plane 0 returns `NULL`
and leaves the globals untouched — in particular it neither constructs nor
returns the adapter, so no adapter can be obtained for a display that is
still negotiating or stopped. -/
theorem up_fbgetvplane_not_ready_null (N : Nat) (st : VncState)
    (display : Int) (s : VncSession)
    (hs : vnc_find_session N st display = some s)
    (hnot : s.state ≠ SessionState.scanning) :
    up_fbgetvplane N st display 0 = (BindResult.nullPtr, st) := by
  simp [up_fbgetvplane, hs, hnot]

/-- Witness for `up_fbgetvplane_not_ready_null`: display 0 of the stopped
fixture holds a `stopped` session; plane 0 returns `NULL` and the globals
are unchanged. -/
theorem up_fbgetvplane_not_ready_null_witness :
    up_fbgetvplane 1 stStopped 0 0 = (BindResult.nullPtr, stStopped) :=
  up_fbgetvplane_not_ready_null 1 stStopped 0 sessionStopped
    (by decide) (by decide)

/-- Claim C8: for every capability operation, a null vtable pointer or a
null argument struct — and, for `up_getplaneinfo`, a plane index other
than 0 — yields `-EINVAL` with the caller's struct and every global
unchanged.  The conclusion holds for every `VncState`, so the result is
established before — and independently of — any session lookup or state
inspection. -/
theorem capability_null_args_einval (N : Nat) (st : VncState)
    (vt : Option VncFbinfo) (vi : Option FbVideoinfo) (pin : Option FbPlaneinfo)
    (cm : Option FbCmap) (ca : Option FbCursorattrib) (sc : Option FbSetcursor)
    (p planeno : Int) (hpl : planeno ≠ 0) :
    up_getvideoinfo N st none vi = (-EINVAL, vi, st) ∧
    up_getvideoinfo N st vt none = (-EINVAL, none, st) ∧
    up_getplaneinfo N st none p pin = (-EINVAL, pin, st) ∧
    up_getplaneinfo N st vt p none = (-EINVAL, none, st) ∧
    up_getplaneinfo N st vt planeno pin = (-EINVAL, pin, st) ∧
    up_getcmap N st none cm = (-EINVAL, cm, st) ∧
    up_getcmap N st vt none = (-EINVAL, none, st) ∧
    up_putcmap N st none cm = (-EINVAL, st) ∧
    up_putcmap N st vt none = (-EINVAL, st) ∧
    up_getcursor N st none ca = (-EINVAL, ca, st) ∧
    up_getcursor N st vt none = (-EINVAL, none, st) ∧
    up_setcursor N st none sc = (-EINVAL, st) ∧
    up_setcursor N st vt none = (-EINVAL, st) :=
  ⟨by cases vi <;> rfl,
   by cases vt <;> rfl,
   by cases pin <;> rfl,
   by cases vt <;> rfl,
   by cases vt <;> cases pin <;> simp [up_getplaneinfo, hpl],
   by cases cm <;> rfl,
   by cases vt <;> rfl,
   by cases cm <;> rfl,
   by cases vt <;> rfl,
   by cases ca <;> rfl,
   by cases vt <;> rfl,
   by cases sc <;> rfl,
   by cases vt <;> rfl⟩

/-- Witness for `capability_null_args_einval`: a null vtable on
`up_getvideoinfo`, and plane index 1 on `up_getplaneinfo` through the
initialized adapter, both fail with `-EINVAL` even though display 0's
session is `SCANNING` (`READY`): the argument check fires first. -/
theorem capability_null_args_einval_witness :
    up_getvideoinfo 1 stReady none (some vi0) = (-EINVAL, some vi0, stReady) ∧
    up_getplaneinfo 1 stReady (some fb0) 1 (some pi0) =
      (-EINVAL, some pi0, stReady) := by
  have h := capability_null_args_einval 1 stReady (some fb0) (some vi0)
    (some pi0) (some cmap0) (some ca0) (some sc0) 0 1 (by decide)
  exact ⟨h.1, h.2.2.2.2.1⟩
